import Mathlib

/-!
Shallow embedding of the cross-iframe RPC engine in `src/collab.ts`
(`collab`), together with the Figma transport adapters' cleanup behaviour
from `src/figma.ts`, and proofs of the specified properties of the
call/return protocol.
-/

set_option maxRecDepth 10000

/-- JavaScript runtime values exchanged by the engine: the serializable data
that can appear as arguments, return values and thrown faults. `error m`
models an `Error` object whose `message` is `m`; `undef` models `undefined`
(and hence an absent optional field); `obj id` models any structured
serializable value (an array or plain object), kept opaque because the
engine never inspects values beyond the `instanceof Error` and
`=== undefined` / `=== null` tests. -/
inductive JVal where
  | undef
  | null
  | bool (b : Bool)
  | num (n : Int)
  | str (s : String)
  | error (msg : String)
  | obj (id : Nat)
deriving DecidableEq, Repr

/-- Whether a value is a string (used to state what the spec calls a
"message string"). -/
def JVal.isStr : JVal → Bool
  | .str _ => true
  | _ => false

/-- Whether a value is an `Error` object (the `ex instanceof Error` test). -/
def JVal.isErrorObj : JVal → Bool
  | .error _ => true
  | _ => false

/-- Embeds `ex instanceof Error ? ex.message : ex` from the two catch paths
of `collab`: an `Error` object is reduced to its message string, any other
fault value passes through unchanged. -/
def errNormalize (e : JVal) : JVal :=
  if h : e.isErrorObj then
    match e, h with
    | .error m, _ => .str m
  else e

/-- A `call` envelope: `{ type: "call", transactionID, func, args }`. -/
structure CollabCallMessage where
  transactionID : String
  func : String
  args : List JVal
deriving DecidableEq, Repr

/-- A `return` envelope: `{ type: "return", transactionID, value?, ex? }`.
A field that the sender omitted is modelled as `JVal.undef`, which is how
the receiving JavaScript code observes it. -/
structure CollabReturnMessage where
  transactionID : String
  value : JVal
  ex : JVal
deriving DecidableEq, Repr

/-- An envelope on the wire: a `call`, a `return`, or (what a buggy or
foreign peer might deliver) an envelope whose `type` tag is neither. -/
inductive CollabMessage where
  | call (m : CollabCallMessage)
  | ret (m : CollabReturnMessage)
  | other (ty : String)
deriving DecidableEq, Repr

/-- The outcome of invoking one locally registered method on given
arguments: a plain (non-`Promise`) return value, a synchronous throw, or a
pending `Promise` identified by a token `p` that will settle later. -/
inductive MethodResult where
  | value (v : JVal)
  | throws (e : JVal)
  | promise (p : Nat)
deriving DecidableEq, Repr

/-- The method table one side registers: names mapped to implementations. -/
abbrev MethodTable := List (String × (List JVal → MethodResult))

/-- Property lookup `message.func in methods` / `methods[message.func]`. -/
def lookupMethod : MethodTable → String → Option (List JVal → MethodResult)
  | [], _ => none
  | (k, f) :: rest, func => if k = func then some f else lookupMethod rest func

/-- The `Error` object built in the unknown-method branch of the handler:
`new Error(...)` mentioning the missing method name. -/
def unknownMethodError (func : String) : JVal :=
  .error ("Unknown method \x22" ++ func ++ "\x22!")

/-- The `TypeError` the JavaScript runtime throws when the handler falls
through the unknown-method branch and invokes `methods[message.func]`,
which is `undefined`. The exact message text is host-defined; only the fact
that it is an `Error` instance matters to the protocol. -/
def undefinedCallTypeError (func : String) : JVal :=
  .error ("methods." ++ func ++ " is not a function")

/-- What the dispatcher does with one `call` envelope: the `return`
envelopes it hands to `toSendMessage` immediately (in order), and, when the
method returned a pending `Promise`, the continuation it registers on that
promise, recorded as the promise token paired with the transaction id the
eventual envelope will carry. -/
structure CallOutput where
  sent : List CollabReturnMessage
  deferred : Option (Nat × String)
deriving DecidableEq, Repr

/-- The `call` branch of the message handler in `collab`, transcribed from
the source. Note the transcription of the source's control flow: when
`message.func` is not in `methods` the handler sends an error envelope but
then still falls through to the invocation attempt (there is no `return`
statement after `toSendMessage`), so `undefined` is invoked, the resulting
`TypeError` is caught, and a second envelope is sent. -/
def handleCall (methods : MethodTable) (m : CollabCallMessage) : CallOutput :=
  let pre : List CollabReturnMessage :=
    match lookupMethod methods m.func with
    | none => [⟨m.transactionID, .undef, unknownMethodError m.func⟩]
    | some _ => []
  match lookupMethod methods m.func with
  | none =>
      ⟨pre ++ [⟨m.transactionID, .undef, errNormalize (undefinedCallTypeError m.func)⟩], none⟩
  | some f =>
      match f m.args with
      | .value v => ⟨pre ++ [⟨m.transactionID, v, .undef⟩], none⟩
      | .throws e => ⟨pre ++ [⟨m.transactionID, .undef, errNormalize e⟩], none⟩
      | .promise p => ⟨pre, some (p, m.transactionID)⟩

/-- The continuation the dispatcher attaches to a method's pending
`Promise` (`value.then(...).catch(...)`): when the promise settles, build
the deferred `return` envelope for the recorded transaction id. A
fulfillment carries the settled value itself (a `JVal`, never a promise:
JavaScript promises cannot fulfill with another promise); a rejection
carries the normalized fault. -/
def promiseReturnMessage (transactionID : String) : Except JVal JVal → CollabReturnMessage
  | .ok newValue => ⟨transactionID, newValue, .undef⟩
  | .error e => ⟨transactionID, .undef, errNormalize e⟩

/-- The observable state of one caller-created promise. -/
inductive FutureState where
  | pending
  | resolved (v : JVal)
  | rejected (e : JVal)
deriving DecidableEq, Repr

/-- JavaScript settlement semantics: `resolve`/`reject` on an
already-settled promise is a no-op; only a pending promise takes the new
outcome. -/
def settleFuture (fs : FutureState) (o : FutureState) : FutureState :=
  match fs with
  | .pending => o
  | s => s

/-- First-match lookup in the per-transaction future table. -/
def lookupFuture : List (String × FutureState) → String → Option FutureState
  | [], _ => none
  | (k, fs) :: rest, tid => if k = tid then some fs else lookupFuture rest tid

/-- Apply a settlement outcome to every future recorded under `tid`
(settled entries are unaffected, per `settleFuture`). -/
def setFuture : List (String × FutureState) → String → FutureState → List (String × FutureState)
  | [], _, _ => []
  | (k, fs) :: rest, tid, o =>
      (if k = tid then (k, settleFuture fs o) else (k, fs)) :: setFuture rest tid o

/-- `transactions.delete(tid)` on the registry key list. -/
def removeTransaction : List String → String → List String
  | [], _ => []
  | t :: ts, tid => if t = tid then removeTransaction ts tid else t :: removeTransaction ts tid

/-- One side's engine state: its `options.name`, the transaction registry
(`transactions`, keys of the `Map`; the stored resolve/reject callbacks
settle the future registered under the same id), the observable state of
every promise this side's proxy ever created, and `nextTransactionIndex`. -/
structure EngineState where
  name : String
  transactions : List String
  futures : List (String × FutureState)
  nextTransactionIndex : Nat
deriving DecidableEq, Repr

/-- The transaction id minted by the proxy: the template string
interpolation of the instance name and the counter. -/
def mkTransactionID (name : String) (i : Nat) : String :=
  name ++ ":" ++ Nat.repr i

/-- What one proxy-method call produces: the updated engine state and the
`call` envelope passed to `toSendMessage`. -/
structure ProxyCallResult where
  state : EngineState
  message : CollabCallMessage
  transactionID : String
deriving DecidableEq, Repr

/-- The function returned by the proxy's `get` trap for an ordinary method
name, transcribed from the source: mint `` `${options.name}:${nextTransactionIndex++}` ``,
register the transaction (whose callbacks settle a fresh pending promise),
and send the `call` envelope. -/
def proxyCall (s : EngineState) (func : String) (args : List JVal) : ProxyCallResult :=
  let tid := mkTransactionID s.name s.nextTransactionIndex
  { state :=
      { s with
        transactions := tid :: s.transactions
        futures := (tid, .pending) :: s.futures
        nextTransactionIndex := s.nextTransactionIndex + 1 }
    message := ⟨tid, func, args⟩
    transactionID := tid }

/-- The message of the `throw` in the `return` branch for an unregistered
transaction id. -/
def unknownTransactionError (tid : String) : String :=
  "Return value for unknown transaction ID " ++ tid ++ " arrived!"

/-- The message of the `throw` for an envelope of unrecognized type. -/
def unknownTypeError (ty : String) : String :=
  "Unknown message with type " ++ ty ++ " arrived!"

/-- The `return` branch of the message handler, transcribed from the
source: look the transaction up (throw on a miss, modelled as `.error`);
`ex === undefined || ex === null` resolves the promise with `value`,
anything else rejects it with `ex`; finally `transactions.delete`. The
throw happens before any mutation, so `.error` carries no state change. -/
def handleReturn (s : EngineState) (m : CollabReturnMessage) : Except String EngineState :=
  if m.transactionID ∈ s.transactions then
    let outcome : FutureState :=
      if m.ex = JVal.undef ∨ m.ex = JVal.null then .resolved m.value else .rejected m.ex
    .ok { s with
          futures := setFuture s.futures m.transactionID outcome
          transactions := removeTransaction s.transactions m.transactionID }
  else
    .error (unknownTransactionError m.transactionID)

/-- What one run of the whole message handler produces when it returns
normally: the engine state, the envelopes sent, and any promise
continuation registered. -/
structure HandlerResult where
  state : EngineState
  sent : List CollabReturnMessage
  deferred : Option (Nat × String)
deriving DecidableEq, Repr

/-- The full message handler registered with `options.toHandleMessage`:
dispatch on `message.type`; a `call` is dispatched to the local method
table (and never touches the registry), a `return` settles a registered
transaction, anything else throws (`.error`). -/
def handleMessage (methods : MethodTable) (s : EngineState) :
    CollabMessage → Except String HandlerResult
  | .call m =>
      let o := handleCall methods m
      .ok ⟨s, o.sent, o.deferred⟩
  | .ret m =>
      match handleReturn s m with
      | .ok s2 => .ok ⟨s2, [], none⟩
      | .error e => .error e
  | .other ty => .error (unknownTypeError ty)

/-- Observer: the state of the future registered under `tid` after a
handler step, `none` when the step threw. -/
def futureAfter (r : Except String EngineState) (tid : String) : Option FutureState :=
  match r with
  | .ok s => lookupFuture s.futures tid
  | .error _ => none

/-- Observer: whether `tid` is still in the registry after a handler step,
`none` when the step threw. -/
def registeredAfter (r : Except String EngineState) (tid : String) : Option Bool :=
  match r with
  | .ok s => some (decide (tid ∈ s.transactions))
  | .error _ => none

/-- Process one `return` envelope and then a second one on the resulting
state (propagating a throw from the first). -/
def handleReturnTwice (s : EngineState) (m1 m2 : CollabReturnMessage) :
    Except String EngineState :=
  match handleReturn s m1 with
  | .ok s2 => handleReturn s2 m2
  | .error e => .error e

/-- Well-formedness of an engine state: every registered id that this
instance could have minted has an index below the current counter. This
holds initially (the registry starts empty) and is preserved by every
operation. -/
def TidFresh (s : EngineState) : Prop :=
  ∀ i : Nat, mkTransactionID s.name i ∈ s.transactions → i < s.nextTransactionIndex

/-- Decimal digit characters of `n`, most significant first: the rendering
that `Nat.toDigitsCore` computes once it has enough fuel. -/
def decDigits (n : Nat) : List Char :=
  if h : n < 10 then [Nat.digitChar n]
  else decDigits (n / 10) ++ [Nat.digitChar (n % 10)]
decreasing_by
  exact Nat.div_lt_self (by omega) (by omega)

/-- Left inverse of the decimal rendering, used to prove transaction-id
uniqueness. -/
def decodeDigits : List Char → Nat
  | [] => 0
  | c :: cs => (c.toNat - 48) * 10 ^ cs.length + decodeDigits cs

/-! ### The transport adapter's cleanup surface (from `src/figma.ts`) -/

/-- The host's single incoming-message slot used by the Figma adapters
(`onmessage` / `figma.ui.onmessage`): whether the engine's handler is
currently registered in it. -/
structure AdapterState where
  handlerRegistered : Bool
deriving DecidableEq, Repr

/-- The `cleanup` closure both Figma adapters return from `toHandleMessage`:
it clears the incoming-message slot (`onmessage = null`,
`figma.ui.onmessage = undefined`), unregistering the handler. -/
def figmaCleanup (a : AdapterState) : AdapterState :=
  { a with handlerRegistered := false }

/-- A property key handed to the proxy's `get` trap: a string name or a
symbol (described by its description string). -/
inductive PropKey where
  | str (s : String)
  | symbol (descr : String)
deriving DecidableEq, Repr

/-- What the proxy's `get` trap can produce: for `cleanupProxy`, the stored
`cleanupFunction` value — which is `none` (i.e. `undefined`) exactly when
`toHandleMessage` returned `void`; for any other string name, the freshly
built remoting function for that method name. -/
inductive ProxyGetResult where
  | value (v : Option (AdapterState → AdapterState))
  | remoteInvoker (func : String)

/-- The proxy's `get` trap, transcribed from the source: `cleanupProxy`
returns the stored `cleanupFunction` unconditionally (`as any`, even when
it is `undefined`); a symbol key throws; any other string name yields the
remoting function. -/
def proxyGet (cleanupFunction : Option (AdapterState → AdapterState)) :
    PropKey → Except String ProxyGetResult
  | .str s =>
      if s = "cleanupProxy" then .ok (.value cleanupFunction)
      else .ok (.remoteInvoker s)
  | .symbol descr =>
      .error ("Symbol property \x22" ++ descr ++ "\x22 is not supported.")

/-- JavaScript call semantics applied to the value stored under
`cleanupProxy`: invoking `undefined` throws a `TypeError` at the call site;
invoking a function runs it on the adapter state. -/
def callCleanupValue (v : Option (AdapterState → AdapterState)) (a : AdapterState) :
    Except String AdapterState :=
  match v with
  | none => .error ("TypeError: proxy.cleanupProxy is not a function")
  | some f => .ok (f a)

/-! ### Concrete fixtures used by witnesses and counterexamples -/

/-- A synchronous addition method, as in the spec's example table
`{ add(x,y){ return x+y } }`. -/
def addImpl : List JVal → MethodResult
  | [.num x, .num y] => .value (.num (x + y))
  | _ => .throws (.error "bad arguments")

/-- An asynchronous method: returns a pending promise (token 0). -/
def slowImpl : List JVal → MethodResult := fun _ => .promise 0

/-- A method that synchronously throws the number `42` (a non-`Error`
fault). -/
def throwNumImpl : List JVal → MethodResult := fun _ => .throws (.num 42)

/-- A method that synchronously throws `null`. -/
def throwNullImpl : List JVal → MethodResult := fun _ => .throws .null

/-- A method that synchronously throws `new Error("boom")`. -/
def throwErrImpl : List JVal → MethodResult := fun _ => .throws (.error "boom")

/-- A small concrete method table exercising every result shape. -/
def demoMethods : MethodTable :=
  [("add", addImpl), ("slow", slowImpl), ("throwNum", throwNumImpl),
   ("throwNull", throwNullImpl), ("throwErr", throwErrImpl)]

/-- A freshly constructed engine for side `"B"`: empty registry, counter 0. -/
def demoEngine : EngineState := ⟨"B", [], [], 0⟩

/-! ## Helper lemmas -/

theorem toDigitsCore_eq_decDigits :
    ∀ (fuel n : Nat) (ds : List Char), n < fuel →
      Nat.toDigitsCore 10 fuel n ds = decDigits n ++ ds := by
  intro fuel
  induction fuel with
  | zero => intro n ds h; omega
  | succ f ih =>
    intro n ds h
    simp only [Nat.toDigitsCore]
    by_cases h10 : n / 10 = 0
    · have hlt : n < 10 := by omega
      rw [decDigits]
      simp [hlt, h10, Nat.mod_eq_of_lt hlt]
    · have hstep : n / 10 < f := by
        have := Nat.div_lt_self (show 0 < n by omega) (show 1 < 10 by omega)
        omega
      rw [decDigits]
      rw [if_neg h10, dif_neg (show ¬ n < 10 by omega), ih (n / 10) _ hstep]
      simp

theorem toDigits_eq_decDigits (n : Nat) : Nat.toDigits 10 n = decDigits n := by
  have := toDigitsCore_eq_decDigits (n + 1) n [] (by omega)
  simpa [Nat.toDigits] using this

theorem decodeDigits_append (xs ys : List Char) :
    decodeDigits (xs ++ ys) = decodeDigits xs * 10 ^ ys.length + decodeDigits ys := by
  induction xs with
  | nil => simp [decodeDigits]
  | cons c cs ih =>
    simp [decodeDigits, ih, List.length_append, pow_add]
    ring

theorem digitChar_toNat (d : Nat) (h : d < 10) : (Nat.digitChar d).toNat - 48 = d := by
  interval_cases d <;> decide

theorem decode_decDigits (n : Nat) : decodeDigits (decDigits n) = n := by
  induction n using Nat.strong_induction_on with
  | _ n ih =>
    rw [decDigits]
    by_cases h : n < 10
    · simp [h, decodeDigits, digitChar_toNat n h]
    · rw [dif_neg h, decodeDigits_append]
      have hdiv : n / 10 < n := Nat.div_lt_self (by omega) (by omega)
      rw [ih (n / 10) hdiv]
      simp [decodeDigits, digitChar_toNat (n % 10) (Nat.mod_lt n (by omega))]
      omega

theorem nat_repr_inj (m n : Nat) (h : Nat.repr m = Nat.repr n) : m = n := by
  have hd : Nat.toDigits 10 m = Nat.toDigits 10 n := by
    have h2 := congrArg String.data h
    simpa [Nat.repr, List.asString] using h2
  have h3 := congrArg decodeDigits hd
  rwa [toDigits_eq_decDigits, toDigits_eq_decDigits, decode_decDigits, decode_decDigits] at h3

theorem mkTransactionID_inj (name : String) (i j : Nat)
    (h : mkTransactionID name i = mkTransactionID name j) : i = j := by
  have hd := congrArg String.data h
  simp only [mkTransactionID, String.data_append, List.append_assoc,
    List.append_right_inj] at hd
  exact nat_repr_inj i j (String.ext hd)

theorem lookupFuture_setFuture (l : List (String × FutureState)) (tid key : String)
    (o : FutureState) :
    lookupFuture (setFuture l tid o) key =
      if key = tid then (lookupFuture l key).map (fun fs => settleFuture fs o)
      else lookupFuture l key := by
  induction l with
  | nil => simp [setFuture, lookupFuture]
  | cons e rest ih =>
    obtain ⟨k, fs⟩ := e
    simp only [setFuture]
    by_cases h1 : k = tid
    · subst h1
      rw [if_pos rfl]
      by_cases h2 : k = key
      · subst h2
        simp [lookupFuture, settleFuture]
      · have h2s : ¬ key = k := fun h => h2 h.symm
        simp [lookupFuture, h2, h2s, ih]
    · rw [if_neg h1]
      by_cases h2 : k = key
      · subst h2
        have h1s : ¬ k = tid := h1
        simp [lookupFuture, h1s]
      · simp [lookupFuture, h2, ih]

theorem mem_removeTransaction (l : List String) (tid t : String) :
    t ∈ removeTransaction l tid ↔ t ∈ l ∧ t ≠ tid := by
  induction l with
  | nil => simp [removeTransaction]
  | cons a as ih =>
    by_cases h : a = tid
    · subst h
      rw [removeTransaction, if_pos rfl, ih]
      simp only [List.mem_cons]
      constructor
      · rintro ⟨hm, hne⟩
        exact ⟨Or.inr hm, hne⟩
      · rintro ⟨ha | hm, hne⟩
        · exact absurd ha hne
        · exact ⟨hm, hne⟩
    · simp only [removeTransaction, if_neg h, List.mem_cons, ih]
      constructor
      · rintro (rfl | ⟨hm, hne⟩)
        · exact ⟨Or.inl rfl, h⟩
        · exact ⟨Or.inr hm, hne⟩
      · rintro ⟨rfl | hm, hne⟩
        · exact Or.inl rfl
        · exact Or.inr ⟨hm, hne⟩

theorem handleReturn_registered (s : EngineState) (m : CollabReturnMessage)
    (h : m.transactionID ∈ s.transactions) :
    handleReturn s m =
      .ok { s with
            futures := setFuture s.futures m.transactionID
              (if m.ex = JVal.undef ∨ m.ex = JVal.null then .resolved m.value
               else .rejected m.ex)
            transactions := removeTransaction s.transactions m.transactionID } := by
  simp [handleReturn, h]

theorem handleReturn_unregistered (s : EngineState) (m : CollabReturnMessage)
    (h : m.transactionID ∉ s.transactions) :
    handleReturn s m = .error (unknownTransactionError m.transactionID) := by
  simp [handleReturn, h]

/-! ## Claim theorems -/

/-- C1: for every method table containing a synchronous method `f` that
returns `v`, invoking the proxy method routes the call envelope to the
dispatcher, which invokes `f` with the args spread positionally and sends a
single return envelope carrying `v` under the call's transaction id; the
caller's engine then resolves the pending promise with `v`. -/
theorem sync_method_roundtrip_resolves (s : EngineState) (methods : MethodTable)
    (func : String) (f : List JVal → MethodResult) (args : List JVal) (v : JVal)
    (hf : lookupMethod methods func = some f) (hv : f args = MethodResult.value v) :
    handleCall methods (proxyCall s func args).message =
      ⟨[⟨(proxyCall s func args).transactionID, v, .undef⟩], none⟩ ∧
    futureAfter
      (handleReturn (proxyCall s func args).state
        ⟨(proxyCall s func args).transactionID, v, .undef⟩)
      (proxyCall s func args).transactionID = some (.resolved v) := by
  have hmem : (proxyCall s func args).transactionID ∈
      (proxyCall s func args).state.transactions := by
    simp [proxyCall]
  refine ⟨?_, ?_⟩
  · simp [handleCall, proxyCall, hf, hv]
  · rw [handleReturn_registered _ _ hmem]
    simp only [futureAfter]
    rw [lookupFuture_setFuture]
    simp [proxyCall, lookupFuture, settleFuture]

/-- C1 witness: the spec example, side A registers `add`, side B calls
`proxy.add(2,3)` and its future resolves to `5`. -/
theorem sync_method_roundtrip_resolves_witness :
    lookupMethod demoMethods "add" = some addImpl ∧
    addImpl [JVal.num 2, JVal.num 3] = MethodResult.value (.num 5) ∧
    (handleCall demoMethods (proxyCall demoEngine "add" [JVal.num 2, JVal.num 3]).message =
      ⟨[⟨(proxyCall demoEngine "add" [JVal.num 2, JVal.num 3]).transactionID,
         JVal.num 5, .undef⟩], none⟩ ∧
     futureAfter
       (handleReturn (proxyCall demoEngine "add" [JVal.num 2, JVal.num 3]).state
         ⟨(proxyCall demoEngine "add" [JVal.num 2, JVal.num 3]).transactionID,
          JVal.num 5, .undef⟩)
       (proxyCall demoEngine "add" [JVal.num 2, JVal.num 3]).transactionID =
       some (.resolved (JVal.num 5))) :=
  ⟨rfl, rfl,
   sync_method_roundtrip_resolves demoEngine demoMethods "add" addImpl
     [JVal.num 2, JVal.num 3] (JVal.num 5) rfl rfl⟩

/-- C2: a method returning a pending future causes no immediate return
envelope: the dispatcher registers a continuation on the promise; once the
promise fulfills with `v`, the deferred envelope carries `v` itself (the
unwrapped value, not a future), and the caller's pending promise resolves
to `v` exactly once — the registry entry is removed, so no second
settlement of this transaction is possible. -/
theorem async_method_roundtrip_resolves (s : EngineState) (methods : MethodTable)
    (func : String) (f : List JVal → MethodResult) (args : List JVal) (p : Nat) (v : JVal)
    (hf : lookupMethod methods func = some f) (hp : f args = MethodResult.promise p) :
    handleCall methods (proxyCall s func args).message =
      ⟨[], some (p, (proxyCall s func args).transactionID)⟩ ∧
    promiseReturnMessage (proxyCall s func args).transactionID (.ok v) =
      ⟨(proxyCall s func args).transactionID, v, .undef⟩ ∧
    futureAfter
      (handleReturn (proxyCall s func args).state
        (promiseReturnMessage (proxyCall s func args).transactionID (.ok v)))
      (proxyCall s func args).transactionID = some (.resolved v) ∧
    registeredAfter
      (handleReturn (proxyCall s func args).state
        (promiseReturnMessage (proxyCall s func args).transactionID (.ok v)))
      (proxyCall s func args).transactionID = some false := by
  have hmem : (proxyCall s func args).transactionID ∈
      (proxyCall s func args).state.transactions := by
    simp [proxyCall]
  refine ⟨?_, rfl, ?_, ?_⟩
  · simp [handleCall, proxyCall, hf, hp]
  · rw [show promiseReturnMessage (proxyCall s func args).transactionID
        (Except.ok v) = ⟨(proxyCall s func args).transactionID, v, .undef⟩ from rfl]
    rw [handleReturn_registered _ _ hmem]
    simp only [futureAfter]
    rw [lookupFuture_setFuture]
    simp [proxyCall, lookupFuture, settleFuture]
  · rw [show promiseReturnMessage (proxyCall s func args).transactionID
        (Except.ok v) = ⟨(proxyCall s func args).transactionID, v, .undef⟩ from rfl]
    rw [handleReturn_registered _ _ hmem]
    simp [registeredAfter, mem_removeTransaction]

/-- C2 witness: an asynchronous method (promise token 0) that later
fulfills with the string result; the caller's future resolves to it. -/
theorem async_method_roundtrip_resolves_witness :
    lookupMethod demoMethods "slow" = some slowImpl ∧
    slowImpl [] = MethodResult.promise 0 ∧
    (handleCall demoMethods (proxyCall demoEngine "slow" []).message =
      ⟨[], some (0, (proxyCall demoEngine "slow" []).transactionID)⟩ ∧
     promiseReturnMessage (proxyCall demoEngine "slow" []).transactionID
       (.ok (JVal.str "done")) =
      ⟨(proxyCall demoEngine "slow" []).transactionID, JVal.str "done", .undef⟩ ∧
     futureAfter
       (handleReturn (proxyCall demoEngine "slow" []).state
         (promiseReturnMessage (proxyCall demoEngine "slow" []).transactionID
           (.ok (JVal.str "done"))))
       (proxyCall demoEngine "slow" []).transactionID =
       some (.resolved (JVal.str "done")) ∧
     registeredAfter
       (handleReturn (proxyCall demoEngine "slow" []).state
         (promiseReturnMessage (proxyCall demoEngine "slow" []).transactionID
           (.ok (JVal.str "done"))))
       (proxyCall demoEngine "slow" []).transactionID = some false) :=
  ⟨rfl, rfl,
   async_method_roundtrip_resolves demoEngine demoMethods "slow" slowImpl [] 0
     (JVal.str "done") rfl rfl⟩

/-- C3 (code bug): on a call envelope naming an unknown method, the handler
does not stop after sending the unknown-method error envelope — the
unknown-method branch has no `return`, so control falls through to the
invocation attempt, `undefined` is invoked, the caught `TypeError` is sent
as a second return envelope for the same transaction, and on the caller's
side that duplicate raises the unknown-transaction protocol fault after the
first envelope has settled and removed the transaction. -/
theorem unknown_method_call_emits_two_envelopes :
    handleCall demoMethods ⟨"B:0", "missing", []⟩ =
      ⟨[⟨"B:0", .undef, unknownMethodError "missing"⟩,
        ⟨"B:0", .undef, JVal.str ("methods.missing is not a function")⟩], none⟩ ∧
    (handleCall demoMethods ⟨"B:0", "missing", []⟩).sent.length = 2 ∧
    (proxyCall demoEngine "missing" []).transactionID = "B:0" ∧
    handleReturnTwice (proxyCall demoEngine "missing" []).state
      ⟨"B:0", .undef, unknownMethodError "missing"⟩
      ⟨"B:0", .undef, JVal.str ("methods.missing is not a function")⟩ =
      .error (unknownTransactionError "B:0") :=
  ⟨rfl, rfl, rfl, rfl⟩

/-- C4 counterexample: a method that throws the number `42` (not an `Error`
object). The dispatcher transmits the fault value itself — `42`, which is
not a string — so the claim that the transmitted error field is a message
string regardless of what was thrown is false on the code. -/
theorem thrown_number_transmitted_unnormalized :
    (handleCall demoMethods ⟨"B:0", "throwNum", []⟩).sent =
      [⟨"B:0", .undef, JVal.num 42⟩] ∧
    JVal.isStr (JVal.num 42) = false :=
  ⟨rfl, rfl⟩

/-- C4 (amended): both fault paths — a synchronous throw and a promise
rejection — transmit `errNormalize` of the fault: an `Error` instance is
reduced to its message string, while any non-`Error` fault value is
transmitted as-is. -/
theorem error_normalization_amended (methods : MethodTable) (m : CollabCallMessage)
    (f : List JVal → MethodResult) (e e2 : JVal) (tid : String) (msg : String)
    (hf : lookupMethod methods m.func = some f)
    (he : f m.args = MethodResult.throws e) :
    (handleCall methods m).sent = [⟨m.transactionID, .undef, errNormalize e⟩] ∧
    promiseReturnMessage tid (.error e2) = ⟨tid, .undef, errNormalize e2⟩ ∧
    errNormalize (JVal.error msg) = JVal.str msg ∧
    (JVal.isErrorObj e2 = false → errNormalize e2 = e2) := by
  refine ⟨?_, rfl, rfl, ?_⟩
  · simp [handleCall, hf, he]
  · intro h
    simp [errNormalize, h]

/-- C4 witness: instantiates the amended normalization statement at the
concrete table entry `throwNum` and the non-`Error` rejection reason `7`. -/
theorem error_normalization_amended_witness :
    lookupMethod demoMethods "throwNum" = some throwNumImpl ∧
    throwNumImpl [] = MethodResult.throws (JVal.num 42) ∧
    ((handleCall demoMethods ⟨"B:0", "throwNum", []⟩).sent =
      [⟨"B:0", .undef, errNormalize (JVal.num 42)⟩] ∧
     promiseReturnMessage "T" (.error (JVal.num 7)) =
      ⟨"T", .undef, errNormalize (JVal.num 7)⟩ ∧
     errNormalize (JVal.error "x") = JVal.str "x" ∧
     (JVal.isErrorObj (JVal.num 7) = false → errNormalize (JVal.num 7) = JVal.num 7)) :=
  ⟨rfl, rfl,
   error_normalization_amended demoMethods ⟨"B:0", "throwNum", []⟩ throwNumImpl
     (JVal.num 42) (JVal.num 7) "T" "x" rfl rfl⟩

/-- C5 counterexample: a method that throws `null`. The fault is caught and
sent in the envelope's `ex` field, but the receiving engine treats
`ex === null` as success, so the caller's future RESOLVES (with
`undefined`) instead of failing — refuting the claim that the caller's
future fails for every thrown fault. -/
theorem thrown_null_resolves_caller_future :
    (handleCall demoMethods (proxyCall demoEngine "throwNull" []).message).sent =
      [⟨"B:0", .undef, JVal.null⟩] ∧
    futureAfter
      (handleReturn (proxyCall demoEngine "throwNull" []).state
        ⟨"B:0", .undef, JVal.null⟩) "B:0" = some (.resolved .undef) ∧
    some (FutureState.resolved .undef) ≠ some (FutureState.rejected JVal.null) :=
  ⟨rfl, rfl, by decide⟩

/-- C5 (amended): every synchronous throw is caught inside the handler and
converted to an error-carrying return envelope for the same transaction id;
the message handler returns normally on every call envelope (no exception
propagates); and whenever the normalized fault is neither `undefined` nor
`null`, the caller's future fails with it. (A method that throws `null` or
`undefined` instead causes the caller's future to resolve with
`undefined`.) -/
theorem sync_throw_caught_and_reported (s cs : EngineState) (methods : MethodTable)
    (func : String) (f : List JVal → MethodResult) (args : List JVal) (e : JVal)
    (cm : CollabCallMessage)
    (hf : lookupMethod methods func = some f)
    (he : f args = MethodResult.throws e) :
    (handleMessage methods cs (CollabMessage.call cm)).isOk = true ∧
    handleCall methods (proxyCall s func args).message =
      ⟨[⟨(proxyCall s func args).transactionID, .undef, errNormalize e⟩], none⟩ ∧
    (errNormalize e ≠ JVal.undef → errNormalize e ≠ JVal.null →
      futureAfter
        (handleReturn (proxyCall s func args).state
          ⟨(proxyCall s func args).transactionID, .undef, errNormalize e⟩)
        (proxyCall s func args).transactionID =
        some (.rejected (errNormalize e))) := by
  have hmem : (proxyCall s func args).transactionID ∈
      (proxyCall s func args).state.transactions := by
    simp [proxyCall]
  refine ⟨rfl, ?_, ?_⟩
  · simp [handleCall, proxyCall, hf, he]
  · intro h1 h2
    rw [handleReturn_registered _ _ hmem]
    simp only [futureAfter]
    rw [lookupFuture_setFuture]
    simp [proxyCall, lookupFuture, settleFuture, h1, h2]

/-- C5 witness: the method `throwErr` throws `new Error("boom")`; the
envelope carries the message string and the caller's future is rejected
with it. -/
theorem sync_throw_caught_and_reported_witness :
    lookupMethod demoMethods "throwErr" = some throwErrImpl ∧
    throwErrImpl [] = MethodResult.throws (JVal.error "boom") ∧
    ((handleMessage demoMethods demoEngine (CollabMessage.call ⟨"X", "add", []⟩)).isOk = true ∧
     handleCall demoMethods (proxyCall demoEngine "throwErr" []).message =
      ⟨[⟨(proxyCall demoEngine "throwErr" []).transactionID, .undef,
         errNormalize (JVal.error "boom")⟩], none⟩ ∧
     (errNormalize (JVal.error "boom") ≠ JVal.undef →
      errNormalize (JVal.error "boom") ≠ JVal.null →
      futureAfter
        (handleReturn (proxyCall demoEngine "throwErr" []).state
          ⟨(proxyCall demoEngine "throwErr" []).transactionID, .undef,
           errNormalize (JVal.error "boom")⟩)
        (proxyCall demoEngine "throwErr" []).transactionID =
        some (.rejected (errNormalize (JVal.error "boom"))))) :=
  ⟨rfl, rfl,
   sync_throw_caught_and_reported demoEngine demoEngine demoMethods "throwErr"
     throwErrImpl [] (JVal.error "boom") ⟨"X", "add", []⟩ rfl rfl⟩

/-- C6 counterexample: a return envelope whose `ex` field is present but
`null`. The error field is not absent, yet the engine settles the future as
SUCCESS with the envelope's value, not as failure — refuting the claim's
"otherwise it is settled as failure with the error". -/
theorem null_ex_field_settles_success :
    handleReturn ⟨"B", ["B:0"], [("B:0", .pending)], 1⟩ ⟨"B:0", JVal.num 7, JVal.null⟩ =
      .ok ⟨"B", [], [("B:0", .resolved (JVal.num 7))], 1⟩ ∧
    futureAfter
      (handleReturn ⟨"B", ["B:0"], [("B:0", .pending)], 1⟩ ⟨"B:0", JVal.num 7, JVal.null⟩)
      "B:0" ≠ some (.rejected JVal.null) ∧
    JVal.null ≠ JVal.undef :=
  ⟨rfl, by decide, by decide⟩

/-- C6 (amended): on a return envelope whose transaction id is registered
and whose future is pending, the engine settles the future as success with
the envelope's value — including `undefined` — when `ex` is absent
(`undefined`) or `null`, and as failure with `ex` otherwise. -/
theorem return_settlement_amended (s : EngineState) (m : CollabReturnMessage)
    (h : m.transactionID ∈ s.transactions)
    (hp : lookupFuture s.futures m.transactionID = some FutureState.pending) :
    ((m.ex = JVal.undef ∨ m.ex = JVal.null) →
      futureAfter (handleReturn s m) m.transactionID = some (.resolved m.value)) ∧
    (m.ex ≠ JVal.undef → m.ex ≠ JVal.null →
      futureAfter (handleReturn s m) m.transactionID = some (.rejected m.ex)) := by
  rw [handleReturn_registered _ _ h]
  constructor
  · intro h1
    simp only [futureAfter]
    rw [lookupFuture_setFuture]
    simp [hp, settleFuture, h1]
  · intro h1 h2
    simp only [futureAfter]
    rw [lookupFuture_setFuture]
    simp [hp, settleFuture, h1, h2]

/-- C6 witness: a success envelope whose value is itself `undefined` still
settles the pending future as success with `undefined`. -/
theorem return_settlement_amended_witness :
    (("B:0" : String) ∈ (⟨"B", ["B:0"], [("B:0", .pending)], 1⟩ : EngineState).transactions) ∧
    lookupFuture (⟨"B", ["B:0"], [("B:0", .pending)], 1⟩ : EngineState).futures "B:0" =
      some FutureState.pending ∧
    ((((⟨"B:0", JVal.undef, JVal.undef⟩ : CollabReturnMessage).ex = JVal.undef ∨
       (⟨"B:0", JVal.undef, JVal.undef⟩ : CollabReturnMessage).ex = JVal.null) →
      futureAfter
        (handleReturn ⟨"B", ["B:0"], [("B:0", .pending)], 1⟩ ⟨"B:0", JVal.undef, JVal.undef⟩)
        "B:0" = some (.resolved JVal.undef)) ∧
     ((⟨"B:0", JVal.undef, JVal.undef⟩ : CollabReturnMessage).ex ≠ JVal.undef →
      (⟨"B:0", JVal.undef, JVal.undef⟩ : CollabReturnMessage).ex ≠ JVal.null →
      futureAfter
        (handleReturn ⟨"B", ["B:0"], [("B:0", .pending)], 1⟩ ⟨"B:0", JVal.undef, JVal.undef⟩)
        "B:0" = some (.rejected JVal.undef))) :=
  ⟨by decide, rfl,
   return_settlement_amended ⟨"B", ["B:0"], [("B:0", .pending)], 1⟩
     ⟨"B:0", JVal.undef, JVal.undef⟩ (by decide) rfl⟩

/-- C7: processing a matching return envelope settles the transaction and
unconditionally removes it from the registry, whatever the outcome; a
duplicate return for the same id then hits the unknown-transaction throw
(which carries no state change, since the throw precedes all mutation) and
can never re-settle anything; and a future that is already settled is never
changed by a settlement step — the per-transaction state machine moves only
from pending to settled. -/
theorem transaction_settled_at_most_once (s : EngineState) (m m2 : CollabReturnMessage)
    (tid2 : String) (fs : FutureState)
    (h : m.transactionID ∈ s.transactions)
    (h2 : m2.transactionID = m.transactionID)
    (hfs : lookupFuture s.futures tid2 = some fs)
    (hset : fs ≠ FutureState.pending) :
    (handleReturn s m).isOk = true ∧
    registeredAfter (handleReturn s m) m.transactionID = some false ∧
    handleReturnTwice s m m2 = .error (unknownTransactionError m.transactionID) ∧
    futureAfter (handleReturn s m) tid2 = some fs := by
  have hr := handleReturn_registered s m h
  refine ⟨?_, ?_, ?_, ?_⟩
  · rw [hr]
    rfl
  · rw [hr]
    simp [registeredAfter, mem_removeTransaction]
  · simp only [handleReturnTwice]
    rw [hr]
    have hnot : m2.transactionID ∉ removeTransaction s.transactions m.transactionID := by
      rw [h2]
      simp [mem_removeTransaction]
    show handleReturn _ m2 = Except.error (unknownTransactionError m.transactionID)
    rw [handleReturn_unregistered _ _ hnot, h2]
  · rw [hr]
    simp only [futureAfter]
    rw [lookupFuture_setFuture]
    by_cases htid : tid2 = m.transactionID
    · rw [if_pos htid, hfs]
      have hss : settleFuture fs
          (if m.ex = JVal.undef ∨ m.ex = JVal.null then FutureState.resolved m.value
           else FutureState.rejected m.ex) = fs := by
        cases fs with
        | pending => exact absurd rfl hset
        | resolved v => rfl
        | rejected e => rfl
      simp [hss]
    · rw [if_neg htid, hfs]

/-- C7 witness: settle transaction `B:0`; it leaves the registry, a
duplicate return for it throws, and the already-settled future `B:1` is
untouched. -/
theorem transaction_settled_at_most_once_witness :
    (("B:0" : String) ∈
      (⟨"B", ["B:0"], [("B:0", .pending), ("B:1", .resolved (JVal.num 1))], 2⟩ :
        EngineState).transactions) ∧
    lookupFuture
      (⟨"B", ["B:0"], [("B:0", .pending), ("B:1", .resolved (JVal.num 1))], 2⟩ :
        EngineState).futures "B:1" = some (FutureState.resolved (JVal.num 1)) ∧
    ((handleReturn ⟨"B", ["B:0"], [("B:0", .pending), ("B:1", .resolved (JVal.num 1))], 2⟩
        ⟨"B:0", JVal.num 7, JVal.undef⟩).isOk = true ∧
     registeredAfter
       (handleReturn ⟨"B", ["B:0"], [("B:0", .pending), ("B:1", .resolved (JVal.num 1))], 2⟩
         ⟨"B:0", JVal.num 7, JVal.undef⟩) "B:0" = some false ∧
     handleReturnTwice ⟨"B", ["B:0"], [("B:0", .pending), ("B:1", .resolved (JVal.num 1))], 2⟩
       ⟨"B:0", JVal.num 7, JVal.undef⟩ ⟨"B:0", JVal.undef, JVal.str "dup"⟩ =
       .error (unknownTransactionError "B:0") ∧
     futureAfter
       (handleReturn ⟨"B", ["B:0"], [("B:0", .pending), ("B:1", .resolved (JVal.num 1))], 2⟩
         ⟨"B:0", JVal.num 7, JVal.undef⟩) "B:1" =
       some (FutureState.resolved (JVal.num 1))) :=
  ⟨by decide, rfl,
   transaction_settled_at_most_once
     ⟨"B", ["B:0"], [("B:0", .pending), ("B:1", .resolved (JVal.num 1))], 2⟩
     ⟨"B:0", JVal.num 7, JVal.undef⟩ ⟨"B:0", JVal.undef, JVal.str "dup"⟩ "B:1"
     (FutureState.resolved (JVal.num 1)) (by decide) rfl rfl (by decide)⟩

/-- C8: on a well-formed engine state, consecutive proxy calls mint
distinct transaction ids (the instance name joined with a strictly
increasing counter), a freshly minted id is never already registered,
well-formedness is preserved, and processing a return envelope leaves the
future of every other transaction id untouched — a return for transaction A
never settles the future for transaction B. -/
theorem transaction_ids_distinct (s s2 s2' : EngineState)
    (f1 : String) (a1 : List JVal) (f2 : String) (a2 : List JVal)
    (m : CollabReturnMessage) (tid2 : String)
    (hfresh : TidFresh s)
    (hret : handleReturn s2 m = Except.ok s2')
    (hne : tid2 ≠ m.transactionID) :
    (proxyCall s f1 a1).transactionID ≠
      (proxyCall (proxyCall s f1 a1).state f2 a2).transactionID ∧
    (proxyCall s f1 a1).transactionID ∉ s.transactions ∧
    TidFresh (proxyCall s f1 a1).state ∧
    lookupFuture s2'.futures tid2 = lookupFuture s2.futures tid2 := by
  refine ⟨?_, ?_, ?_, ?_⟩
  · intro heq
    have hij : s.nextTransactionIndex = s.nextTransactionIndex + 1 :=
      mkTransactionID_inj s.name _ _ heq
    omega
  · intro hmem
    have := hfresh s.nextTransactionIndex hmem
    omega
  · intro i hi
    have hi2 : mkTransactionID s.name i ∈
        mkTransactionID s.name s.nextTransactionIndex :: s.transactions := hi
    show i < s.nextTransactionIndex + 1
    rcases List.mem_cons.mp hi2 with heq | hmem
    · have := mkTransactionID_inj s.name i s.nextTransactionIndex heq
      omega
    · have := hfresh i hmem
      omega
  · have hmem2 : m.transactionID ∈ s2.transactions := by
      by_contra hnot
      rw [handleReturn_unregistered _ _ hnot] at hret
      exact Except.noConfusion hret
    rw [handleReturn_registered _ _ hmem2] at hret
    injection hret with hret
    rw [← hret]
    simp only []
    rw [lookupFuture_setFuture, if_neg hne]

/-- C8 witness: instantiates the uniqueness and isolation statement on a
fresh engine and a one-transaction registry; the return for `B:0` leaves
the future slot of `B:9` unchanged. -/
theorem transaction_ids_distinct_witness :
    TidFresh demoEngine ∧
    handleReturn ⟨"B", ["B:0"], [("B:0", FutureState.pending)], 1⟩
      ⟨"B:0", JVal.num 1, JVal.undef⟩ =
      Except.ok ⟨"B", [], [("B:0", FutureState.resolved (JVal.num 1))], 1⟩ ∧
    ("B:9" : String) ≠ "B:0" ∧
    ((proxyCall demoEngine "f" []).transactionID ≠
      (proxyCall (proxyCall demoEngine "f" []).state "g" []).transactionID ∧
     (proxyCall demoEngine "f" []).transactionID ∉ demoEngine.transactions ∧
     TidFresh (proxyCall demoEngine "f" []).state ∧
     lookupFuture
       (⟨"B", [], [("B:0", FutureState.resolved (JVal.num 1))], 1⟩ : EngineState).futures
       "B:9" =
     lookupFuture
       (⟨"B", ["B:0"], [("B:0", FutureState.pending)], 1⟩ : EngineState).futures "B:9") :=
  ⟨fun _ hi => absurd hi (List.not_mem_nil _), rfl, by decide,
   transaction_ids_distinct demoEngine
     ⟨"B", ["B:0"], [("B:0", FutureState.pending)], 1⟩
     ⟨"B", [], [("B:0", FutureState.resolved (JVal.num 1))], 1⟩
     "f" [] "g" [] ⟨"B:0", JVal.num 1, JVal.undef⟩ "B:9"
     (fun _ hi => absurd hi (List.not_mem_nil _)) rfl (by decide)⟩

/-- C9: a return envelope whose transaction id is not registered, and an
envelope of unrecognized type, are escalated as thrown protocol faults
(`.error`, the handler's throw path, distinct from any caller's future);
the throw happens before any registry or future mutation in the source, so
nothing is settled, created or removed. -/
theorem protocol_faults_thrown (s : EngineState) (methods : MethodTable)
    (m : CollabReturnMessage) (ty : String)
    (h : m.transactionID ∉ s.transactions) :
    handleMessage methods s (CollabMessage.ret m) =
      .error (unknownTransactionError m.transactionID) ∧
    handleMessage methods s (CollabMessage.other ty) = .error (unknownTypeError ty) ∧
    handleReturn s m = .error (unknownTransactionError m.transactionID) := by
  have hr := handleReturn_unregistered s m h
  refine ⟨?_, rfl, hr⟩
  simp [handleMessage, hr]

/-- C9 witness: a return for the never-issued id `X:5` and an envelope of
type `"hello"` are both thrown as protocol faults on a fresh engine. -/
theorem protocol_faults_thrown_witness :
    (("X:5" : String) ∉ demoEngine.transactions) ∧
    (handleMessage demoMethods demoEngine (CollabMessage.ret ⟨"X:5", JVal.undef, JVal.undef⟩) =
      .error (unknownTransactionError "X:5") ∧
     handleMessage demoMethods demoEngine (CollabMessage.other "hello") =
      .error (unknownTypeError "hello") ∧
     handleReturn demoEngine ⟨"X:5", JVal.undef, JVal.undef⟩ =
      .error (unknownTransactionError "X:5")) :=
  ⟨by decide,
   protocol_faults_thrown demoEngine demoMethods ⟨"X:5", JVal.undef, JVal.undef⟩ "hello"
     (by decide)⟩

/-- C10: when `toHandleMessage` returned no cleanup function, the proxy's
`cleanupProxy` property is `undefined` (the stored `cleanupFunction`, cast
`as any`), so invoking it throws a `TypeError` at the call site rather than
being a no-op; when the adapter did return its cleanup closure (as both
Figma adapters do), invoking `cleanupProxy` runs it, which unregisters the
handler from the incoming-message slot. -/
theorem cleanup_proxy_undefined_when_adapter_returns_void (a : AdapterState) :
    proxyGet none (PropKey.str "cleanupProxy") = .ok (.value none) ∧
    callCleanupValue none a = .error ("TypeError: proxy.cleanupProxy is not a function") ∧
    proxyGet (some figmaCleanup) (PropKey.str "cleanupProxy") =
      .ok (.value (some figmaCleanup)) ∧
    callCleanupValue (some figmaCleanup) a = .ok ⟨false⟩ :=
  ⟨rfl, rfl, rfl, rfl⟩
